import Mathlib

set_option maxHeartbeats 1000000

/-!
Shallow embedding of the vox-navigator TTS server core
(src/tts-server), covering:

- core/errors.py        : the error taxonomy (exception classes);
- core/device.py        : the immutable DeviceInfo descriptor;
- core/engine_manager.py: EngineManager lifecycle, fallback, synthesize;
- audio/writer.py       : write_wav and the PCM sample conversion;
- engines/base.py       : BaseTTSEngine.validate_text;
- engines/xtts_engine.py: the guard sequence of XTTSEngine.synthesize.

External collaborators (the torch device probe, the XTTSEngine
constructor, the neural model, the wave library, the filesystem) are
modelled as explicit parameters carrying their outcome, so that every
control path of the embedded code is a total computable function of its
inputs. Python floats are modelled as rationals, Python ints as Int,
byte strings as lists of Nat below 256.
-/

/-- Python exception values relevant to the server, tagged by class. The
variants mirror core/errors.py (SynthesisError, EngineLoadError,
DeviceError), audio/writer.py (AudioWriteError) and the builtin
ImportError (which carries the name of the module that failed to
import); otherError stands for any other exception class, carrying the
class name and the message. -/
inductive PyErr where
  | synthesisError (msg : String)
  | engineLoadError (msg : String)
  | deviceError (msg : String)
  | audioWriteError (msg : String)
  | importError (modName : String) (msg : String)
  | otherError (tyName : String) (msg : String)
  deriving DecidableEq

/-- Message text of a modelled Python exception, as produced by str(e). -/
def PyErr.msg : PyErr → String
  | .synthesisError m => m
  | .engineLoadError m => m
  | .deviceError m => m
  | .audioWriteError m => m
  | .importError _ m => m
  | .otherError _ m => m

/-- Class name of a modelled Python exception, as produced by
type(e).__name__. -/
def PyErr.typeName : PyErr → String
  | .synthesisError _ => "SynthesisError"
  | .engineLoadError _ => "EngineLoadError"
  | .deviceError _ => "DeviceError"
  | .audioWriteError _ => "AudioWriteError"
  | .importError _ _ => "ImportError"
  | .otherError t _ => t

/-- Substring embedding: the text small occurs contiguously inside big. -/
def Embeds (big small : String) : Prop :=
  ∃ a b, big = a ++ small ++ b

/-- Decidable equality for Except values with decidable components. -/
instance {ε α : Type} [DecidableEq ε] [DecidableEq α] :
    DecidableEq (Except ε α)
  | .ok x, .ok y =>
    if h : x = y then .isTrue (by rw [h]) else .isFalse (by simp [h])
  | .error x, .error y =>
    if h : x = y then .isTrue (by rw [h]) else .isFalse (by simp [h])
  | .ok _, .error _ => .isFalse (by simp)
  | .error _, .ok _ => .isFalse (by simp)

/-- Every string embeds itself. -/
theorem embeds_refl (s : String) : Embeds s s :=
  ⟨"", "", by simp⟩

/-- Embedding is preserved by appending context on the left. -/
theorem embeds_append_left (a : String) {s t : String}
    (h : Embeds s t) : Embeds (a ++ s) t := by
  obtain ⟨x, y, hx⟩ := h
  exact ⟨a ++ x, y, by rw [hx]; simp [String.append_assoc]⟩

/-- Embedding is preserved by appending context on the right. -/
theorem embeds_append_right (b : String) {s t : String}
    (h : Embeds s t) : Embeds (s ++ b) t := by
  obtain ⟨x, y, hx⟩ := h
  exact ⟨x, y ++ b, by rw [hx]; simp [String.append_assoc]⟩

/-- Immutable device descriptor, mirroring the frozen dataclass
DeviceInfo of core/device.py. -/
structure DeviceInfo where
  type : String
  name : String
  torch_device : String
  details : Option String
  deriving DecidableEq

/-- CPU fallback descriptor built inside EngineManager.get_engine
(engine_manager.py lines 125-130). -/
def cpuFallbackDevice : DeviceInfo :=
  ⟨"cpu", "CPU", "cpu", some "CPU fallback after GPU failure"⟩

/-- State of the EngineManager singleton: the cached engine handle
(engine instances modelled by numeric ids) and the cached device
descriptor — the class attributes _engine and _device_info of
engine_manager.py. -/
structure ManagerState where
  engine : Option Nat
  device_info : Option DeviceInfo
  deriving DecidableEq

/-- Result of one manager operation: the returned value or raised
exception, the manager state afterwards, and instrumentation recording
how many times device detection ran and, in order, the devices on which
engine construction was attempted. -/
structure Traced (α : Type) where
  result : Except PyErr α
  state : ManagerState
  detectCalls : Nat
  attempts : List DeviceInfo
  deriving DecidableEq

/-- EngineManager.get_device_info (engine_manager.py lines 68-91):
returns the cached descriptor, or runs detection once and caches the
result; a detection failure is wrapped as DeviceError and nothing is
cached. The external probe detect_device is modelled by the detect
argument, an Except carrying either the descriptor or the failure
message. -/
def get_device_info (detect : Except String DeviceInfo) (s : ManagerState) :
    Traced DeviceInfo :=
  match s.device_info with
  | some d => ⟨.ok d, s, 0, []⟩
  | none =>
    match detect with
    | .ok d => ⟨.ok d, ⟨s.engine, some d⟩, 1, []⟩
    | .error m =>
      ⟨.error (.deviceError ("Failed to detect compute device: " ++ m)), s, 1, []⟩

/-- EngineManager._initialize_engine (engine_manager.py lines 147-171):
constructs an XTTSEngine for the given device; any constructor failure
is wrapped as EngineLoadError naming the device type. The XTTSEngine
constructor is modelled by the construct argument, returning an engine
id or a failure message. -/
def initEngine (construct : DeviceInfo → Except String Nat)
    (d : DeviceInfo) : Except PyErr Nat :=
  match construct d with
  | .ok e => .ok e
  | .error m =>
    .error (.engineLoadError
      ("Failed to create engine for device " ++ d.type ++ ": " ++ m))

/-- EngineManager.get_engine (engine_manager.py lines 93-145): returns
the cached engine if present; otherwise resolves the device, attempts
construction on it, and on failure retries once on the CPU fallback
descriptor when the attempted device was not cpu, caching the fallback
descriptor on success; when both attempts fail, or the device was
already cpu, raises EngineLoadError and caches nothing. -/
def get_engine (detect : Except String DeviceInfo)
    (construct : DeviceInfo → Except String Nat) (s : ManagerState) :
    Traced Nat :=
  match s.engine with
  | some e => ⟨.ok e, s, 0, []⟩
  | none =>
    let di := get_device_info detect s
    match di.result with
    | .error err => ⟨.error err, di.state, di.detectCalls, []⟩
    | .ok d =>
      match initEngine construct d with
      | .ok e => ⟨.ok e, ⟨some e, di.state.device_info⟩, di.detectCalls, [d]⟩
      | .error e1 =>
        if d.type ≠ "cpu" then
          match initEngine construct cpuFallbackDevice with
          | .ok e =>
            ⟨.ok e, ⟨some e, some cpuFallbackDevice⟩, di.detectCalls,
              [d, cpuFallbackDevice]⟩
          | .error e2 =>
            ⟨.error (.engineLoadError
                ("Engine initialization failed on both " ++ d.type ++
                  " and CPU: " ++ e1.msg ++ "; CPU error: " ++ e2.msg)),
              di.state, di.detectCalls, [d, cpuFallbackDevice]⟩
        else
          ⟨.error (.engineLoadError
              ("Engine initialization failed on CPU: " ++ e1.msg)),
            di.state, di.detectCalls, [d]⟩

/-- EngineManager.is_initialized (engine_manager.py lines 264-271). -/
def isInitialized (s : ManagerState) : Bool :=
  s.engine.isSome

/-- EngineManager.get_current_device (engine_manager.py lines 273-280). -/
def get_current_device (s : ManagerState) : Option DeviceInfo :=
  s.device_info

/-- C1: in a get_engine call where construction fails on a device whose
kind is not cpu, the manager retries construction exactly once on the
cpu fallback descriptor; if the cpu retry succeeds, the call returns the
cpu engine, the cached descriptor is replaced by the fallback one, and
get_current_device afterwards reports the fallback descriptor; if the
attempted device was already cpu, no retry occurs (the only attempted
device is the cpu one). -/
theorem c1_cpu_fallback_on_failure
    (detect : Except String DeviceInfo)
    (construct : DeviceInfo → Except String Nat)
    (s : ManagerState) (d : DeviceInfo) (m : String) (e : Nat)
    (hEng : s.engine = none) (hDev : s.device_info = some d) :
    (d.type ≠ "cpu" → construct d = .error m →
      construct cpuFallbackDevice = .ok e →
      (get_engine detect construct s).result = .ok e ∧
      (get_engine detect construct s).attempts = [d, cpuFallbackDevice] ∧
      (get_engine detect construct s).state.device_info =
        some cpuFallbackDevice ∧
      get_current_device (get_engine detect construct s).state =
        some cpuFallbackDevice) ∧
    (d.type = "cpu" → construct d = .error m →
      (get_engine detect construct s).attempts = [d]) := by
  constructor
  · intro hne h1 h2
    simp [get_engine, get_device_info, initEngine, hEng, hDev, h1, h2, hne,
      get_current_device]
  · intro hcpu h1
    simp [get_engine, get_device_info, initEngine, hEng, hDev, h1, hcpu]

/-- Witness for c1_cpu_fallback_on_failure at a cuda device with a
constructor that fails off cpu and succeeds on cpu. -/
theorem c1_cpu_fallback_on_failure_witness :
    ((⟨none, some ⟨"cuda", "GPU", "cuda", none⟩⟩ : ManagerState).engine
        = none) ∧
    ((⟨none, some ⟨"cuda", "GPU", "cuda", none⟩⟩ :
        ManagerState).device_info = some ⟨"cuda", "GPU", "cuda", none⟩) ∧
    (get_engine (.error "unused")
        (fun dv => if dv.type = "cpu" then .ok 7 else .error "boom")
        ⟨none, some ⟨"cuda", "GPU", "cuda", none⟩⟩).result = .ok 7 ∧
    (get_engine (.error "unused")
        (fun dv => if dv.type = "cpu" then .ok 7 else .error "boom")
        ⟨none, some ⟨"cuda", "GPU", "cuda", none⟩⟩).attempts =
      [⟨"cuda", "GPU", "cuda", none⟩, cpuFallbackDevice] ∧
    get_current_device (get_engine (.error "unused")
        (fun dv => if dv.type = "cpu" then .ok 7 else .error "boom")
        ⟨none, some ⟨"cuda", "GPU", "cuda", none⟩⟩).state =
      some cpuFallbackDevice := by
  have h := (c1_cpu_fallback_on_failure (.error "unused")
      (fun dv => if dv.type = "cpu" then .ok 7 else .error "boom")
      ⟨none, some ⟨"cuda", "GPU", "cuda", none⟩⟩
      ⟨"cuda", "GPU", "cuda", none⟩ "boom" 7 rfl rfl).1
      (by decide) (by decide) (by decide)
  exact ⟨rfl, rfl, h.1, h.2.1, h.2.2.2⟩

/-- C5: after a successful initialization (an engine handle is cached),
get_engine returns the cached handle with the state unchanged, performs
no detection and no construction attempt, and a second consecutive call
returns the identical traced outcome. -/
theorem c5_get_engine_idempotent
    (detect : Except String DeviceInfo)
    (construct : DeviceInfo → Except String Nat)
    (s : ManagerState) (e : Nat) (h : s.engine = some e) :
    get_engine detect construct s = ⟨.ok e, s, 0, []⟩ ∧
    get_engine detect construct (get_engine detect construct s).state =
      get_engine detect construct s := by
  constructor
  · simp [get_engine, h]
  · simp [get_engine, h]

/-- Witness for c5_get_engine_idempotent with engine id 3 cached. -/
theorem c5_get_engine_idempotent_witness :
    ((⟨some 3, none⟩ : ManagerState).engine = some 3) ∧
    get_engine (.error "unused") (fun _ => .error "unused")
        (⟨some 3, none⟩ : ManagerState) = ⟨.ok 3, ⟨some 3, none⟩, 0, []⟩ ∧
    get_engine (.error "unused") (fun _ => .error "unused")
        (get_engine (.error "unused") (fun _ => .error "unused")
          (⟨some 3, none⟩ : ManagerState)).state =
      get_engine (.error "unused") (fun _ => .error "unused")
        (⟨some 3, none⟩ : ManagerState) := by
  have h := c5_get_engine_idempotent (.error "unused")
    (fun _ => .error "unused") ⟨some 3, none⟩ 3 rfl
  exact ⟨rfl, h.1, h.2⟩

/-- C2: when construction fails on a non cpu device and the single cpu
fallback retry also fails, get_engine raises EngineLoad with a message
embedding both underlying failure messages, the manager state is
unchanged (so isInitialized stays false and no engine handle is cached),
and a subsequent call runs the construction and fallback sequence again
from the cached device, producing the identical traced outcome. -/
theorem c2_double_failure
    (detect : Except String DeviceInfo)
    (construct : DeviceInfo → Except String Nat)
    (s : ManagerState) (d : DeviceInfo) (m1 m2 : String)
    (hEng : s.engine = none) (hDev : s.device_info = some d)
    (hne : d.type ≠ "cpu")
    (h1 : construct d = .error m1)
    (h2 : construct cpuFallbackDevice = .error m2) :
    (∃ em, (get_engine detect construct s).result =
        .error (.engineLoadError em) ∧ Embeds em m1 ∧ Embeds em m2) ∧
    (get_engine detect construct s).state = s ∧
    isInitialized (get_engine detect construct s).state = false ∧
    (get_engine detect construct s).attempts = [d, cpuFallbackDevice] ∧
    get_engine detect construct (get_engine detect construct s).state =
      get_engine detect construct s := by
  have key : get_engine detect construct s =
      ⟨.error (.engineLoadError
          ("Engine initialization failed on both " ++ d.type ++
            " and CPU: " ++
            ("Failed to create engine for device " ++ d.type ++ ": " ++ m1)
            ++ "; CPU error: " ++
            ("Failed to create engine for device " ++
              cpuFallbackDevice.type ++ ": " ++ m2))),
        s, 0, [d, cpuFallbackDevice]⟩ := by
    simp [get_engine, get_device_info, initEngine, hEng, hDev, h1, h2, hne,
      PyErr.msg]
  rw [key]
  refine ⟨⟨_, rfl, ?_, ?_⟩, rfl, by simp [isInitialized, hEng], rfl, key⟩
  · exact embeds_append_right _ (embeds_append_right _
      (embeds_append_left _ (embeds_append_left _ (embeds_refl m1))))
  · exact embeds_append_left _ (embeds_append_left _ (embeds_refl m2))

/-- Witness for c2_double_failure at a cuda device with a constructor
failing on every device. -/
theorem c2_double_failure_witness :
    ((⟨none, some ⟨"cuda", "GPU", "cuda", none⟩⟩ : ManagerState).engine
        = none) ∧
    ((fun dv => if dv.type = "cpu" then Except.error "cpuboom"
        else Except.error "gpuboom") :
      DeviceInfo → Except String Nat) ⟨"cuda", "GPU", "cuda", none⟩ =
        .error "gpuboom" ∧
    (∃ em, (get_engine (.error "unused")
        (fun dv => if dv.type = "cpu" then .error "cpuboom"
          else .error "gpuboom")
        ⟨none, some ⟨"cuda", "GPU", "cuda", none⟩⟩).result =
        .error (.engineLoadError em) ∧
        Embeds em "gpuboom" ∧ Embeds em "cpuboom") ∧
    isInitialized (get_engine (.error "unused")
        (fun dv => if dv.type = "cpu" then .error "cpuboom"
          else .error "gpuboom")
        ⟨none, some ⟨"cuda", "GPU", "cuda", none⟩⟩).state = false := by
  have h := c2_double_failure (.error "unused")
      (fun dv => if dv.type = "cpu" then .error "cpuboom"
        else .error "gpuboom")
      ⟨none, some ⟨"cuda", "GPU", "cuda", none⟩⟩
      ⟨"cuda", "GPU", "cuda", none⟩ "gpuboom" "cpuboom"
      rfl rfl (by decide) (by decide) (by decide)
  exact ⟨rfl, by decide, h.1, h.2.2.1⟩

/-- Python str.strip(): remove leading and trailing whitespace. The
whitespace set is modelled by Char.isWhitespace (space, tab, carriage
return, newline), which covers every character the claims mention. -/
def pyStrip (text : String) : String :=
  ⟨((text.data.dropWhile Char.isWhitespace).reverse.dropWhile
      Char.isWhitespace).reverse⟩

/-- UTF-8 encoding of one unicode code point. -/
def utf8EncodeChar (n : Nat) : List Nat :=
  if n < 0x80 then [n]
  else if n < 0x800 then [0xC0 + n / 64, 0x80 + n % 64]
  else if n < 0x10000 then
    [0xE0 + n / 4096, 0x80 + n / 64 % 64, 0x80 + n % 64]
  else
    [0xF0 + n / 262144, 0x80 + n / 4096 % 64, 0x80 + n / 64 % 64,
      0x80 + n % 64]

/-- UTF-8 bytes of a string (Python text.encode()). -/
def utf8Bytes (text : String) : List Nat :=
  text.data.flatMap (fun c => utf8EncodeChar c.toNat)

/-- Left rotation of a 32 bit word (operand reduced modulo 2 ^ 32). -/
def rotl32 (x s : Nat) : Nat :=
  (x % 2 ^ 32) * 2 ^ s % 2 ^ 32 + (x % 2 ^ 32) / 2 ^ (32 - s)

/-- MD5 round function F. -/
def md5F (b c d : Nat) : Nat := (b &&& c) ||| ((b ^^^ 0xFFFFFFFF) &&& d)

/-- MD5 round function G. -/
def md5G (b c d : Nat) : Nat := (d &&& b) ||| ((d ^^^ 0xFFFFFFFF) &&& c)

/-- MD5 round function H. -/
def md5H (b c d : Nat) : Nat := b ^^^ c ^^^ d

/-- MD5 round function I. -/
def md5I (b c d : Nat) : Nat := c ^^^ (b ||| (d ^^^ 0xFFFFFFFF))

/-- MD5 sine table (RFC 1321). -/
def md5K : List Nat :=
  [0xd76aa478, 0xe8c7b756, 0x242070db, 0xc1bdceee,
   0xf57c0faf, 0x4787c62a, 0xa8304613, 0xfd469501,
   0x698098d8, 0x8b44f7af, 0xffff5bb1, 0x895cd7be,
   0x6b901122, 0xfd987193, 0xa679438e, 0x49b40821,
   0xf61e2562, 0xc040b340, 0x265e5a51, 0xe9b6c7aa,
   0xd62f105d, 0x02441453, 0xd8a1e681, 0xe7d3fbc8,
   0x21e1cde6, 0xc33707d6, 0xf4d50d87, 0x455a14ed,
   0xa9e3e905, 0xfcefa3f8, 0x676f02d9, 0x8d2a4c8a,
   0xfffa3942, 0x8771f681, 0x6d9d6122, 0xfde5380c,
   0xa4beea44, 0x4bdecfa9, 0xf6bb4b60, 0xbebfbc70,
   0x289b7ec6, 0xeaa127fa, 0xd4ef3085, 0x04881d05,
   0xd9d4d039, 0xe6db99e5, 0x1fa27cf8, 0xc4ac5665,
   0xf4292244, 0x432aff97, 0xab9423a7, 0xfc93a039,
   0x655b59c3, 0x8f0ccc92, 0xffeff47d, 0x85845dd1,
   0x6fa87e4f, 0xfe2ce6e0, 0xa3014314, 0x4e0811a1,
   0xf7537e82, 0xbd3af235, 0x2ad7d2bb, 0xeb86d391]

/-- MD5 per-round shift amounts (RFC 1321). -/
def md5S : List Nat :=
  [7, 12, 17, 22, 7, 12, 17, 22, 7, 12, 17, 22, 7, 12, 17, 22,
   5, 9, 14, 20, 5, 9, 14, 20, 5, 9, 14, 20, 5, 9, 14, 20,
   4, 11, 16, 23, 4, 11, 16, 23, 4, 11, 16, 23, 4, 11, 16, 23,
   6, 10, 15, 21, 6, 10, 15, 21, 6, 10, 15, 21, 6, 10, 15, 21]

/-- One of the 64 MD5 operations on the state (a, b, c, d), with m the
sixteen message words of the current block. -/
def md5Op (m : List Nat) (st : Nat × Nat × Nat × Nat) (i : Nat) :
    Nat × Nat × Nat × Nat :=
  let a := st.1
  let b := st.2.1
  let c := st.2.2.1
  let d := st.2.2.2
  let f :=
    if i < 16 then md5F b c d
    else if i < 32 then md5G b c d
    else if i < 48 then md5H b c d
    else md5I b c d
  let g :=
    if i < 16 then i
    else if i < 32 then (5 * i + 1) % 16
    else if i < 48 then (3 * i + 5) % 16
    else 7 * i % 16
  let tmp := (a + f + md5K.getD i 0 + m.getD g 0) % 2 ^ 32
  let newB := (b + rotl32 tmp (md5S.getD i 0)) % 2 ^ 32
  (d, newB, b, c)

/-- MD5 compression of one 64-byte block (given as 16 words). -/
def md5Block (st : Nat × Nat × Nat × Nat) (m : List Nat) :
    Nat × Nat × Nat × Nat :=
  let r := (List.range 64).foldl (md5Op m) st
  ((st.1 + r.1) % 2 ^ 32, (st.2.1 + r.2.1) % 2 ^ 32,
    (st.2.2.1 + r.2.2.1) % 2 ^ 32, (st.2.2.2 + r.2.2.2) % 2 ^ 32)

/-- Little-endian byte list of length k for a number. -/
def leBytes (w k : Nat) : List Nat :=
  (List.range k).map (fun i => w / 2 ^ (8 * i) % 256)

/-- MD5 padding: a 0x80 byte, zeros to 56 mod 64, then the bit length as
eight little-endian bytes. -/
def md5Pad (msg : List Nat) : List Nat :=
  msg ++ [0x80] ++ List.replicate ((56 + 64 - (msg.length + 1) % 64) % 64) 0
    ++ leBytes (8 * msg.length % 2 ^ 64) 8

/-- Grouping of a byte list into 32 bit little-endian words. -/
def bytesToWords : List Nat → List Nat
  | b0 :: b1 :: b2 :: b3 :: rest =>
    (b0 % 256 + 256 * (b1 % 256) + 65536 * (b2 % 256)
      + 16777216 * (b3 % 256)) :: bytesToWords rest
  | _ => []

/-- Splitting of a byte list into successive 64-byte chunks. -/
def chunks64 (l : List Nat) : List (List Nat) :=
  if h : l = [] then []
  else l.take 64 :: chunks64 (l.drop 64)
termination_by l.length
decreasing_by
  simp only [List.length_drop]
  have := List.length_pos.mpr h
  omega

/-- MD5 digest of a byte string, as the four 32 bit state words. -/
def md5Digest (msg : List Nat) : Nat × Nat × Nat × Nat :=
  (chunks64 (md5Pad msg)).foldl
    (fun st chunk => md5Block st (bytesToWords chunk))
    (0x67452301, 0xefcdab89, 0x98badcfe, 0x10325476)

/-- Hexadecimal digit character (lowercase, as Python hexdigest). -/
def hexDigitChar (n : Nat) : Char :=
  if n < 10 then Char.ofNat (48 + n) else Char.ofNat (87 + n)

/-- Two hex characters of a byte, high nibble first. -/
def byteHex (b : Nat) : List Char :=
  [hexDigitChar (b / 16 % 16), hexDigitChar (b % 16)]

/-- Hex characters of a 32 bit word, bytes little-endian first. -/
def wordHexLE (w : Nat) : List Char :=
  byteHex (w % 256) ++ byteHex (w / 256 % 256) ++ byteHex (w / 65536 % 256)
    ++ byteHex (w / 16777216 % 256)

/-- hashlib.md5(msg).hexdigest(): 32 lowercase hex characters. -/
def md5Hex (msg : List Nat) : String :=
  let d := md5Digest msg
  ⟨wordHexLE d.1 ++ wordHexLE d.2.1 ++ wordHexLE d.2.2.1
    ++ wordHexLE d.2.2.2⟩

/-- hashlib.md5(text.encode()).hexdigest()[:8] (engine_manager.py line
207): the eight hex character hash prefix used in the filename. Python
string slicing is modelled at the character list level. -/
def textHash8 (text : String) : String :=
  ⟨(md5Hex (utf8Bytes text)).data.take 8⟩

/-- Decimal digit characters of a natural number, most significant
first (Python str(int) for nonnegative values, as used by the f-string
formatting the timestamp). -/
def decChars (n : Nat) : List Char :=
  if n < 10 then [Char.ofNat (48 + n)]
  else decChars (n / 10) ++ [Char.ofNat (48 + n % 10)]
termination_by n
decreasing_by exact Nat.div_lt_self (by omega) (by omega)

/-- Output filename built by EngineManager.synthesize (engine_manager.py
lines 206-210): tts_ then the coarse timestamp int(time.time()), an
underscore, the eight character text hash, and the .wav suffix. -/
def outputFilename (timestamp : Nat) (text : String) : String :=
  "tts_" ++ ⟨decChars timestamp⟩ ++ "_" ++ textHash8 text ++ ".wav"

/-- Outcome of the call engine.synthesize(text, output_path) made inside
EngineManager.synthesize: either a returned path (together with whether
a file is present at the computed output path), or a raised exception
(together with whether a file, possibly written only in part, is present
at the computed output path when the exception propagates). -/
inductive EngineRunOutcome where
  | ok (path : String) (fileAtPath : Bool)
  | raised (e : PyErr) (fileAtPath : Bool)
  deriving DecidableEq

/-- Exception dispatch of EngineManager.synthesize (engine_manager.py
lines 220-262): given the exception raised by the engine call and
whether a file exists at the computed output path, returns the exception
propagated to the caller and whether a file is still present at that
path afterwards. The ImportError arm (lines 220-231) re-raises as
EngineLoadError and performs no file cleanup; the SynthesisError and
EngineLoadError arms (lines 234-250) remove the file and re-raise
unchanged; the final arm (lines 252-262) removes the file and wraps as
SynthesisError preserving the class name and message. -/
def handleSynthFailure (e : PyErr) (fileAtPath : Bool) : PyErr × Bool :=
  match e with
  | .importError modName m =>
    if modName = "TTS" ∨ "TTS.".isPrefixOf modName then
      (.engineLoadError
        "Coqui TTS library not installed. Install with: pip install TTS",
        fileAtPath)
    else
      (.engineLoadError
        ("XTTS failed during import phase: ImportError: " ++ m),
        fileAtPath)
  | .synthesisError m => (.synthesisError m, false)
  | .engineLoadError m => (.engineLoadError m, false)
  | e =>
    (.synthesisError
      ("Unexpected TTS runtime error: " ++ e.typeName ++ ": " ++ e.msg),
      false)

/-- Result of EngineManager.synthesize: the path returned or exception
raised, the manager state afterwards, the detection and construction
instrumentation, and whether a file is present at the computed output
path afterwards. -/
structure SynthTraced where
  result : Except PyErr String
  state : ManagerState
  detectCalls : Nat
  attempts : List DeviceInfo
  fileAtPath : Bool
  deriving DecidableEq

/-- EngineManager.synthesize (engine_manager.py lines 173-262): rejects
empty or whitespace-only text before anything else; resolves the engine
through get_engine; computes the output path from the output directory
(tempfile.gettempdir(), modelled as /tmp, when none is given) and the
timestamp-and-hash filename; runs the engine; on engine failure applies
the exception dispatch of handleSynthFailure. The engine call is
modelled by the run argument, a function of the engine id, the text and
the computed output path. -/
def synthesize (detect : Except String DeviceInfo)
    (construct : DeviceInfo → Except String Nat)
    (run : Nat → String → String → EngineRunOutcome)
    (timestamp : Nat) (output_dir : Option String)
    (s : ManagerState) (text : String) : SynthTraced :=
  if text = "" ∨ pyStrip text = "" then
    ⟨.error (.synthesisError "Text input cannot be empty"), s, 0, [], false⟩
  else
    let ge := get_engine detect construct s
    match ge.result with
    | .error e => ⟨.error e, ge.state, ge.detectCalls, ge.attempts, false⟩
    | .ok eng =>
      let dir := (output_dir.getD "/tmp")
      let path := dir ++ "/" ++ outputFilename timestamp text
      match run eng text path with
      | .ok p fileAt => ⟨.ok p, ge.state, ge.detectCalls, ge.attempts, fileAt⟩
      | .raised e fileAt =>
        let h := handleSynthFailure e fileAt
        ⟨.error h.1, ge.state, ge.detectCalls, ge.attempts, h.2⟩

/-- Discriminator for the two failure kinds the synthesize dispatch
recognizes and re-raises unchanged (Synthesis, EngineLoad). -/
def PyErr.isRecognizedKind : PyErr → Bool
  | .synthesisError _ => true
  | .engineLoadError _ => true
  | _ => false

/-- Discriminator for the builtin ImportError. -/
def PyErr.isImport : PyErr → Bool
  | .importError _ _ => true
  | _ => false

/-- C4: for text that is empty or whitespace only after trimming,
synthesize raises SynthesisError while invoking neither device
detection nor engine construction, leaving the manager state untouched. -/
theorem c4_empty_text_guard
    (detect : Except String DeviceInfo)
    (construct : DeviceInfo → Except String Nat)
    (run : Nat → String → String → EngineRunOutcome)
    (timestamp : Nat) (output_dir : Option String)
    (s : ManagerState) (text : String) (h : pyStrip text = "") :
    synthesize detect construct run timestamp output_dir s text =
      ⟨.error (.synthesisError "Text input cannot be empty"), s, 0, [],
        false⟩ := by
  simp [synthesize, h]

/-- Witness for c4_empty_text_guard on a whitespace-only text. -/
theorem c4_empty_text_guard_witness :
    pyStrip "  \t " = "" ∧
    synthesize (.error "unused") (fun _ => .error "unused")
        (fun _ _ _ => .ok "p" true) 0 none ⟨none, none⟩ "  \t " =
      ⟨.error (.synthesisError "Text input cannot be empty"),
        ⟨none, none⟩, 0, [], false⟩ := by
  refine ⟨by decide, ?_⟩
  exact c4_empty_text_guard (.error "unused") (fun _ => .error "unused")
    (fun _ _ _ => .ok "p" true) 0 none ⟨none, none⟩ "  \t " (by decide)

/-- C3 counterexample: an ImportError raised out of the engine call with
a file present at the computed output path propagates with the file
still present — the dispatch does not delete it, contrary to the claim
that every failure first has the partially written file deleted (the
raised error is also EngineLoad, not the Synthesis wrap the claim
assigns to unrecognized kinds). -/
theorem c3_counterexample :
    ¬ ((synthesize (.error "unused") (fun _ => .error "unused")
        (fun _ _ _ => .raised (.importError "os" "boom") true) 0
        (some "/out") ⟨some 1, none⟩ "hi").fileAtPath = false) := by
  decide

/-- C3 amended: a SynthesisError or EngineLoadError from the engine call
is re-raised unchanged after the file at the output path is deleted; any
other failure that is not an ImportError is wrapped as SynthesisError
preserving the class name and message, after the file is deleted; an
ImportError is re-raised as EngineLoadError with the file left exactly
as it was. -/
theorem c3_failure_dispatch (e : PyErr) (fileAt : Bool) :
    (e.isRecognizedKind = true →
      handleSynthFailure e fileAt = (e, false)) ∧
    (e.isRecognizedKind = false → e.isImport = false →
      handleSynthFailure e fileAt =
        (.synthesisError
          ("Unexpected TTS runtime error: " ++ e.typeName ++ ": "
            ++ e.msg), false)) ∧
    (e.isImport = true →
      (handleSynthFailure e fileAt).2 = fileAt ∧
      ∃ m, (handleSynthFailure e fileAt).1 = .engineLoadError m) := by
  refine ⟨?_, ?_, ?_⟩
  · intro h
    cases e <;> simp_all [PyErr.isRecognizedKind, handleSynthFailure]
  · intro h1 h2
    cases e <;>
      simp_all [PyErr.isRecognizedKind, PyErr.isImport, handleSynthFailure,
        PyErr.typeName, PyErr.msg]
  · intro h
    cases e <;> simp_all [PyErr.isImport, handleSynthFailure]
    case importError modName m =>
      by_cases hm : modName = "TTS" ∨ "TTS.".isPrefixOf modName <;>
        simp [hm]

/-- Witness for c3_failure_dispatch: each arm applied at a concrete
exception. -/
theorem c3_failure_dispatch_witness :
    ((PyErr.synthesisError "s").isRecognizedKind = true ∧
      handleSynthFailure (.synthesisError "s") true =
        (.synthesisError "s", false)) ∧
    ((PyErr.otherError "ValueError" "bad").isRecognizedKind = false ∧
      (PyErr.otherError "ValueError" "bad").isImport = false ∧
      handleSynthFailure (.otherError "ValueError" "bad") true =
        (.synthesisError
          "Unexpected TTS runtime error: ValueError: bad", false)) ∧
    ((PyErr.importError "os" "boom").isImport = true ∧
      (handleSynthFailure (.importError "os" "boom") true).2 = true ∧
      ∃ m, (handleSynthFailure (.importError "os" "boom") true).1 =
        .engineLoadError m) := by
  have h1 := (c3_failure_dispatch (.synthesisError "s") true).1 (by decide)
  have h2 := (c3_failure_dispatch (.otherError "ValueError" "bad") true).2.1
    (by decide) (by decide)
  have h3 := (c3_failure_dispatch (.importError "os" "boom") true).2.2
    (by decide)
  refine ⟨⟨by decide, h1⟩, ⟨by decide, by decide, ?_⟩, ⟨by decide, h3⟩⟩
  simpa [PyErr.typeName, PyErr.msg] using h2

/-- Python sample value handed to the audio writer: a float (modelled as
a rational), an int, or a value of another type carrying the printed
type text. -/
inductive PySample where
  | f (x : Rat)
  | i (n : Int)
  | other (tyName : String)
  deriving DecidableEq

/-- Discriminator for writer samples of neither numeric family. -/
def PySample.isOther : PySample → Bool
  | .other _ => true
  | _ => false

/-- Truncation toward zero, as Python int() applied to a float. -/
def ratTrunc (q : Rat) : Int :=
  if 0 ≤ q then q.floor else q.ceil

/-- Per-sample conversion of _audio_to_pcm_bytes (writer.py lines
175-191): a float is clamped to [-1, 1] then scaled by 32767 and
truncated toward zero; an int is clamped to the signed 16 bit range;
any other type raises AudioWriteError. -/
def pcmOfSample : PySample → Except String Int
  | .f x => .ok (ratTrunc (max (-1) (min 1 x) * 32767))
  | .i n => .ok (max (-32768) (min 32767 n))
  | .other ty =>
    .error ("Invalid sample type: " ++ ty ++ " (must be float or int)")

/-- Accumulation loop of _audio_to_pcm_bytes: converts samples in order,
raising at the first invalid one. -/
def pcmSamples : List PySample → Except String (List Int)
  | [] => .ok []
  | smp :: rest =>
    match pcmOfSample smp with
    | .error e => .error e
    | .ok v =>
      match pcmSamples rest with
      | .error e => .error e
      | .ok vs => .ok (v :: vs)

/-- int.to_bytes(2, byteorder little, signed=True): the two bytes of the
16 bit two complement representation, low byte first. -/
def bytesLE16 (v : Int) : List Nat :=
  [(v % 65536 % 256).toNat, (v % 65536 / 256).toNat]

/-- _audio_to_pcm_bytes (writer.py lines 157-199). -/
def audioToPcmBytes (l : List PySample) : Except String (List Nat) :=
  match pcmSamples l with
  | .error e => .error e
  | .ok vs => .ok (vs.flatMap bytesLE16)

/-- Conversion succeeds on any list free of non-numeric samples. -/
theorem pcmSamples_ok_of_numeric (l : List PySample)
    (h : ∀ smp ∈ l, smp.isOther = false) : ∃ vs, pcmSamples l = .ok vs := by
  induction l with
  | nil => exact ⟨[], rfl⟩
  | cons smp rest ih =>
    obtain ⟨vs, hvs⟩ := ih (fun t ht => h t (List.mem_cons_of_mem _ ht))
    have hs := h smp (List.mem_cons_self _ _)
    cases smp with
    | f x =>
      exact ⟨ratTrunc (max (-1) (min 1 x) * 32767) :: vs,
        by simp [pcmSamples, pcmOfSample, hvs]⟩
    | i n =>
      exact ⟨max (-32768) (min 32767 n) :: vs,
        by simp [pcmSamples, pcmOfSample, hvs]⟩
    | other ty => simp [PySample.isOther] at hs

/-- Conversion raises when some sample is of neither numeric family. -/
theorem pcmSamples_error_of_other (l : List PySample)
    (h : ∃ smp ∈ l, smp.isOther = true) :
    ∃ em, pcmSamples l = .error em := by
  induction l with
  | nil => simp at h
  | cons smp rest ih =>
    obtain ⟨t, ht, hot⟩ := h
    rcases List.mem_cons.mp ht with hh | hh
    · subst hh
      cases t with
      | f x => simp [PySample.isOther] at hot
      | i n => simp [PySample.isOther] at hot
      | other ty =>
        exact ⟨"Invalid sample type: " ++ ty ++ " (must be float or int)",
          by simp [pcmSamples, pcmOfSample]⟩
    · obtain ⟨em, hem⟩ := ih ⟨t, hh, hot⟩
      cases smp with
      | f x => exact ⟨em, by simp [pcmSamples, pcmOfSample, hem]⟩
      | i n => exact ⟨em, by simp [pcmSamples, pcmOfSample, hem]⟩
      | other ty =>
        exact ⟨"Invalid sample type: " ++ ty ++ " (must be float or int)",
          by simp [pcmSamples, pcmOfSample]⟩

/-- Successful conversion yields one value per sample. -/
theorem pcmSamples_length (l : List PySample) (vs : List Int)
    (h : pcmSamples l = .ok vs) : vs.length = l.length := by
  induction l generalizing vs with
  | nil => simp [pcmSamples] at h; simp [← h]
  | cons smp rest ih =>
    simp only [pcmSamples] at h
    cases hps : pcmOfSample smp with
    | error e => rw [hps] at h; simp at h
    | ok v =>
      rw [hps] at h
      cases hrest : pcmSamples rest with
      | error e => rw [hrest] at h; simp at h
      | ok vs0 =>
        rw [hrest] at h
        simp at h
        simp [← h, ih vs0 hrest]

/-- Each 16 bit value contributes exactly two bytes. -/
theorem flatMap_bytesLE16_length (vs : List Int) :
    (vs.flatMap bytesLE16).length = 2 * vs.length := by
  induction vs with
  | nil => rfl
  | cons v rest ih => simp [List.flatMap_cons, bytesLE16, ih]; omega

/-- C7: float samples are clamped to [-1, 1], scaled by 32767 and
truncated toward zero; int samples are clamped to [-32768, 32767];
mixed numeric sequences convert successfully; a sample of neither
family raises; output is two little-endian bytes per sample; a float
sample 2.0 encodes identically to 1.0 and an int sample -40000
identically to -32768. -/
theorem c7_sample_conversion :
    (∀ x : Rat, pcmOfSample (.f x) =
      .ok (ratTrunc (max (-1) (min 1 x) * 32767))) ∧
    (∀ n : Int, pcmOfSample (.i n) = .ok (max (-32768) (min 32767 n))) ∧
    (∀ l : List PySample, (∀ smp ∈ l, smp.isOther = false) →
      ∃ bs, audioToPcmBytes l = .ok bs) ∧
    (∀ l : List PySample, (∃ smp ∈ l, smp.isOther = true) →
      ∃ em, audioToPcmBytes l = .error em) ∧
    (∀ (l : List PySample) (bs : List Nat), audioToPcmBytes l = .ok bs →
      bs.length = 2 * l.length) ∧
    audioToPcmBytes [.f 2] = audioToPcmBytes [.f 1] ∧
    audioToPcmBytes [.i (-40000)] = audioToPcmBytes [.i (-32768)] := by
  have h12 : min (1 : Rat) 2 = 1 := min_eq_left (by norm_num)
  have h11 : min (1 : Rat) 1 = 1 := min_eq_left le_rfl
  refine ⟨fun x => rfl, fun n => rfl, ?_, ?_, ?_,
    by simp [audioToPcmBytes, pcmSamples, pcmOfSample, h12, h11], by decide⟩
  · intro l h
    obtain ⟨vs, hvs⟩ := pcmSamples_ok_of_numeric l h
    exact ⟨vs.flatMap bytesLE16, by simp [audioToPcmBytes, hvs]⟩
  · intro l h
    obtain ⟨em, hem⟩ := pcmSamples_error_of_other l h
    exact ⟨em, by simp [audioToPcmBytes, hem]⟩
  · intro l bs h
    simp only [audioToPcmBytes] at h
    cases hps : pcmSamples l with
    | error e => rw [hps] at h; simp at h
    | ok vs =>
      rw [hps] at h
      simp at h
      rw [← h, flatMap_bytesLE16_length, pcmSamples_length l vs hps]

/-- Witness for c7_sample_conversion: the quantified arms applied to a
mixed numeric list, to a list holding a string sample, and to a
concrete int list whose byte output has twice as many entries. -/
theorem c7_sample_conversion_witness :
    ((∀ smp ∈ ([.f 1, .i 5] : List PySample), smp.isOther = false) ∧
      ∃ bs, audioToPcmBytes [.f 1, .i 5] = .ok bs) ∧
    ((∃ smp ∈ ([.f 1, .other "str"] : List PySample),
        smp.isOther = true) ∧
      ∃ em, audioToPcmBytes [.f 1, .other "str"] = .error em) ∧
    (audioToPcmBytes [.i 5, .i (-1)] = .ok [5, 0, 255, 255] ∧
      ([5, 0, 255, 255] : List Nat).length =
        2 * ([.i 5, .i (-1)] : List PySample).length) := by
  refine ⟨⟨by simp [PySample.isOther], ?_⟩,
    ⟨⟨.other "str", by simp, rfl⟩, ?_⟩, ⟨by decide, ?_⟩⟩
  · exact c7_sample_conversion.2.2.1 [.f 1, .i 5]
      (by simp [PySample.isOther])
  · exact c7_sample_conversion.2.2.2.1 [.f 1, .other "str"]
      ⟨.other "str", by simp, rfl⟩
  · exact c7_sample_conversion.2.2.2.2.1 [.i 5, .i (-1)] [5, 0, 255, 255]
      (by decide)

/-- Decimal text of a Python int (used in writer error messages). -/
def intDec (n : Int) : String :=
  if n < 0 then "-" ++ ⟨decChars n.natAbs⟩ else ⟨decChars n.natAbs⟩

/-- Outcome of the low level WAV write (_write_wav_file wrapping the
wave module, writer.py lines 202-230): either the library call returns
leaving the given bytes at the target path, or it raises (the raised
message given), leaving the path absent or holding partly written
bytes; the code never inspects those bytes, only existence. -/
inductive WavWriteOutcome where
  | ok (content : List Nat)
  | raisedWith (left : Option (List Nat)) (msg : String)
  deriving DecidableEq

/-- Result of write_wav: the returned path or the AudioWriteError
message, and the byte content present at the target path afterwards
(none meaning no file). -/
structure WriteResult where
  result : Except String String
  file : Option (List Nat)
  deriving DecidableEq

/-- write_wav (writer.py lines 44-154): validates sample rate, channel
count and non-emptiness before any I/O; resolves the output path
(tempfile.mkstemp creates an empty file when no path is given, modelled
by the fixed scratch path); converts samples to PCM bytes; performs the
low level write, deleting whatever is at the target path when the write
raises; finally re-checks the written file and treats a zero byte
result as an error, removing the file. The startFile argument is the
content at the target path before the call; low is the behavior of the
wave library at this path. -/
def write_wav (audio_data : List PySample) (output_path : Option String)
    (sample_rate : Int) (channels : Int)
    (startFile : Option (List Nat)) (low : WavWriteOutcome) : WriteResult :=
  if sample_rate ≤ 0 then
    ⟨.error ("Invalid sample rate: " ++ intDec sample_rate ++ " Hz"),
      startFile⟩
  else if channels ≠ 1 ∧ channels ≠ 2 then
    ⟨.error ("Unsupported channel count: " ++ intDec channels ++
      " (must be 1 or 2)"), startFile⟩
  else if audio_data = [] then
    ⟨.error "Audio data cannot be empty", startFile⟩
  else
    let path := output_path.getD "/tmp/tts_mkstemp.wav"
    let fileAfterPath : Option (List Nat) :=
      match output_path with
      | none => some []
      | some _ => startFile
    match audioToPcmBytes audio_data with
    | .error e =>
      ⟨.error ("Failed to convert audio data to PCM: " ++ e),
        fileAfterPath⟩
    | .ok _ =>
      match low with
      | .raisedWith _ msg =>
        ⟨.error ("Failed to write WAV file to " ++ path ++ ": " ++ msg),
          none⟩
      | .ok content =>
        if content.length = 0 then
          ⟨.error ("WAV file is empty at " ++ path), none⟩
        else
          ⟨.ok path, some content⟩

/-- C6: when the low level write raises after path resolution, the file
at the target path is deleted before the AudioWriteError propagates;
when the write returns but the file is zero bytes, this is itself an
AudioWriteError and the file is removed; consequently a successful
write_wav always leaves an existing, non-empty file at the returned
path, and a failed write never leaves a non-empty file written by the
failed write attempt at the target path. -/
theorem c6_write_wav_cleanup (audio_data : List PySample)
    (output_path : Option String) (sample_rate channels : Int)
    (startFile : Option (List Nat)) :
    (∀ left msg, 0 < sample_rate → (channels = 1 ∨ channels = 2) →
      audio_data ≠ [] → (∃ bs, audioToPcmBytes audio_data = .ok bs) →
      (write_wav audio_data output_path sample_rate channels startFile
        (.raisedWith left msg)).file = none ∧
      ∃ em, (write_wav audio_data output_path sample_rate channels
        startFile (.raisedWith left msg)).result = .error em) ∧
    (0 < sample_rate → (channels = 1 ∨ channels = 2) →
      audio_data ≠ [] → (∃ bs, audioToPcmBytes audio_data = .ok bs) →
      (write_wav audio_data output_path sample_rate channels startFile
        (.ok [])).file = none ∧
      ∃ em, (write_wav audio_data output_path sample_rate channels
        startFile (.ok [])).result = .error em) ∧
    (∀ low pth,
      (write_wav audio_data output_path sample_rate channels startFile
        low).result = .ok pth →
      ∃ c, (write_wav audio_data output_path sample_rate channels
        startFile low).file = some c ∧ c ≠ []) := by
  refine ⟨?_, ?_, ?_⟩
  · intro left msg hsr hch hne ⟨bs, hbs⟩
    have hsr' : ¬ sample_rate ≤ 0 := by omega
    have hch' : ¬ (channels ≠ 1 ∧ channels ≠ 2) := by
      rcases hch with h | h <;> simp [h]
    refine ⟨?_, ?_⟩ <;>
      simp [write_wav, hsr', hch', hne, hbs]
  · intro hsr hch hne ⟨bs, hbs⟩
    have hsr' : ¬ sample_rate ≤ 0 := by omega
    have hch' : ¬ (channels ≠ 1 ∧ channels ≠ 2) := by
      rcases hch with h | h <;> simp [h]
    refine ⟨?_, ?_⟩ <;>
      simp [write_wav, hsr', hch', hne, hbs]
  · intro low pth
    simp only [write_wav]
    split
    · intro h; simp at h
    · split
      · intro h; simp at h
      · split
        · intro h; simp at h
        · cases hconv : audioToPcmBytes audio_data with
          | error e => intro h; simp at h
          | ok bs =>
            cases low with
            | raisedWith left msg => intro h; simp at h
            | ok content =>
              by_cases hlen : content.length = 0
              · intro h; simp [hlen] at h
              · intro h
                simp only [if_neg hlen]
                exact ⟨content, rfl, fun hc => hlen (by simp [hc])⟩

/-- Witness for c6_write_wav_cleanup at a one-sample write to a given
path. -/
theorem c6_write_wav_cleanup_witness :
    ((0 : Int) < 22050 ∧ ((1 : Int) = 1 ∨ (1 : Int) = 2) ∧
      ([.i 0] : List PySample) ≠ [] ∧
      audioToPcmBytes [.i 0] = .ok [0, 0]) ∧
    ((write_wav [.i 0] (some "/out/a.wav") 22050 1 (some [1, 2, 3])
        (.raisedWith (some [82]) "disk full")).file = none ∧
      ∃ em, (write_wav [.i 0] (some "/out/a.wav") 22050 1 (some [1, 2, 3])
        (.raisedWith (some [82]) "disk full")).result = .error em) ∧
    ((write_wav [.i 0] (some "/out/a.wav") 22050 1 (some [1, 2, 3])
        (.ok [])).file = none ∧
      ∃ em, (write_wav [.i 0] (some "/out/a.wav") 22050 1 (some [1, 2, 3])
        (.ok [])).result = .error em) ∧
    (∃ c, (write_wav [.i 0] (some "/out/a.wav") 22050 1 (some [1, 2, 3])
        (.ok [9, 9])).file = some c ∧ c ≠ []) := by
  have h := c6_write_wav_cleanup [.i 0] (some "/out/a.wav") 22050 1
    (some [1, 2, 3])
  refine ⟨⟨by norm_num, Or.inl rfl, by simp, by decide⟩, ?_, ?_, ?_⟩
  · exact h.1 (some [82]) "disk full" (by norm_num) (Or.inl rfl)
      (by simp) ⟨[0, 0], by decide⟩
  · exact h.2.1 (by norm_num) (Or.inl rfl) (by simp) ⟨[0, 0], by decide⟩
  · exact h.2.2 (.ok [9, 9]) "/out/a.wav" (by decide)

/-- BaseTTSEngine.validate_text (engines/base.py lines 145-174): rejects
empty text, then whitespace-only text, then text whose trimmed length
exceeds 10000 characters (the isinstance check cannot fire in this
model, where the input is always a string). -/
def validate_text (text : String) : Except String Unit :=
  if text = "" then .error "Text input cannot be empty"
  else if pyStrip text = "" then
    .error "Text input cannot be empty or whitespace only"
  else if 10000 < (pyStrip text).length then
    .error "Text input exceeds maximum length of 10000 characters"
  else .ok ()

/-- Reference speaker WAV path resolved in the XTTSEngine constructor
(xtts_engine.py lines 60-67), relative to the engines directory. -/
def defaultSpeakerPath : String :=
  "assets/speakers/default_pt.wav"

/-- Observable side effects of one XTTSEngine.synthesize call: whether
model loading was attempted, whether a scratch output file was created
during path resolution (tempfile.mkstemp), and whether inference ran. -/
structure XttsEffects where
  loadAttempted : Bool
  tempFileCreated : Bool
  inferenceRan : Bool
  deriving DecidableEq

/-- XTTSEngine.synthesize (engines/xtts_engine.py lines 154-287),
modelled to the depth the claims need: text validation (line 166), lazy
model loading (lines 169-173, outcome given by loadOutcome, whose error
is an EngineLoadError message), output path resolution (lines 177-184,
creating a scratch file when no path is given), the reference speaker
existence check (lines 187-193), and the guarded inference block with
its error mapping and cleanup (lines 201-287), abstracted by the infer
argument giving the outcome that block propagates. -/
def xttsSynthesize (text : String) (modelLoaded : Bool)
    (loadOutcome : Except String Unit) (speakerExists : Bool)
    (output_path : Option String) (infer : Except PyErr String) :
    Except PyErr String × XttsEffects :=
  match validate_text text with
  | .error m => (.error (.synthesisError m), ⟨false, false, false⟩)
  | .ok _ =>
    let loadAttempted := !modelLoaded
    match (if modelLoaded then Except.ok () else loadOutcome) with
    | .error m => (.error (.engineLoadError m), ⟨loadAttempted, false, false⟩)
    | .ok _ =>
      let tempCreated := output_path.isNone
      if speakerExists then (infer, ⟨loadAttempted, tempCreated, true⟩)
      else
        (.error (.synthesisError
            ("Default speaker file not found: " ++ defaultSpeakerPath ++
              ". XTTS v2 requires a reference speaker WAV.")),
          ⟨loadAttempted, tempCreated, false⟩)

/-- C10: for text whose trimmed length exceeds 10000 characters, the
validation at the start of XTTSEngine.synthesize raises SynthesisError
with the maximum-length message before any model loading, inference or
file creation. -/
theorem c10_max_length_guard (text : String) (modelLoaded : Bool)
    (loadOutcome : Except String Unit) (speakerExists : Bool)
    (output_path : Option String) (infer : Except PyErr String)
    (h : 10000 < (pyStrip text).length) :
    xttsSynthesize text modelLoaded loadOutcome speakerExists output_path
        infer =
      (.error (.synthesisError
          "Text input exceeds maximum length of 10000 characters"),
        ⟨false, false, false⟩) := by
  have hs : pyStrip text ≠ "" := by
    intro he
    rw [he] at h
    simp [String.length] at h
  have ht : text ≠ "" := by
    intro he
    rw [he] at hs
    exact hs rfl
  simp [xttsSynthesize, validate_text, ht, hs, h]

/-- Witness for c10_max_length_guard on a text of 10001 letters. -/
theorem c10_max_length_guard_witness :
    10000 < (pyStrip ⟨List.replicate 10001 'a'⟩).length ∧
    xttsSynthesize ⟨List.replicate 10001 'a'⟩ false (.ok ()) true none
        (.ok "p") =
      (.error (.synthesisError
          "Text input exceeds maximum length of 10000 characters"),
        ⟨false, false, false⟩) := by
  have hws : Char.isWhitespace 'a' = false := by decide
  have hdrop : ∀ n : Nat,
      (List.replicate n 'a').dropWhile Char.isWhitespace =
        List.replicate n 'a' := by
    intro n
    cases n with
    | zero => rfl
    | succ k =>
      rw [List.replicate_succ, List.dropWhile_cons, hws]
      simp [List.replicate_succ]
  have hstrip : pyStrip ⟨List.replicate 10001 'a'⟩ =
      ⟨List.replicate 10001 'a'⟩ := by
    show (⟨(((List.replicate 10001 'a').dropWhile
        Char.isWhitespace).reverse.dropWhile
          Char.isWhitespace).reverse⟩ : String) = _
    rw [hdrop, List.reverse_replicate, hdrop, List.reverse_replicate]
  have hlen : 10000 < (pyStrip ⟨List.replicate 10001 'a'⟩).length := by
    rw [hstrip]
    show 10000 < (List.replicate 10001 'a').length
    rw [List.length_replicate]
    norm_num
  exact ⟨hlen, c10_max_length_guard ⟨List.replicate 10001 'a'⟩ false
    (.ok ()) true none (.ok "p") hlen⟩

/-- Shared-memory state for two request threads entering
EngineManager.get_engine concurrently for the first time on the success
path (device already cached, construction succeeding). Each thread runs
atomic actions mirroring the unlocked check-then-construct sequence of
engine_manager.py: the action at program counter 0 reads _engine (line
106) and either returns it or proceeds, and the action at program
counter 1 constructs a fresh engine and stores it into _engine (line
113). No lock exists anywhere in the module, so any interleaving of
these actions is possible. -/
structure RaceState where
  engine : Option Nat
  pc0 : Nat
  pc1 : Nat
  ret0 : Option Nat
  ret1 : Option Nat
  constructions : Nat
  nextId : Nat
  deriving DecidableEq

/-- One atomic action of thread t (false = first thread, true = second)
in the unlocked get_engine interleaving model. -/
def raceStep (t : Bool) (s : RaceState) : RaceState :=
  if t = false then
    if s.pc0 = 0 then
      match s.engine with
      | some e => ⟨s.engine, 2, s.pc1, some e, s.ret1, s.constructions,
          s.nextId⟩
      | none => ⟨s.engine, 1, s.pc1, s.ret0, s.ret1, s.constructions,
          s.nextId⟩
    else if s.pc0 = 1 then
      ⟨some s.nextId, 2, s.pc1, some s.nextId, s.ret1,
        s.constructions + 1, s.nextId + 1⟩
    else s
  else
    if s.pc1 = 0 then
      match s.engine with
      | some e => ⟨s.engine, s.pc0, 2, s.ret0, some e, s.constructions,
          s.nextId⟩
      | none => ⟨s.engine, s.pc0, 1, s.ret0, s.ret1, s.constructions,
          s.nextId⟩
    else if s.pc1 = 1 then
      ⟨some s.nextId, s.pc0, 2, s.ret0, some s.nextId,
        s.constructions + 1, s.nextId + 1⟩
    else s

/-- Execution of a schedule (a list of thread choices) from a state. -/
def raceRun (sched : List Bool) (s : RaceState) : RaceState :=
  sched.foldl (fun st t => raceStep t st) s

/-- Initial state for two concurrent first get_engine calls: no engine
cached, both threads before the check, no constructions yet. -/
def raceInit : RaceState :=
  ⟨none, 0, 0, none, none, 0, 1⟩

/-- C9: get_engine has no mutual exclusion around its check-then-
construct sequence; under the interleaving in which both threads pass
the cached-engine check before either constructs, the engine resource is
constructed twice and the two callers obtain different handles —
initialization is not at-most-once, contradicting the specified
protection. -/
theorem c9_race_double_construction :
    (raceRun [false, true, false, true] raceInit).constructions = 2 ∧
    (raceRun [false, true, false, true] raceInit).ret0 = some 1 ∧
    (raceRun [false, true, false, true] raceInit).ret1 = some 2 ∧
    (raceRun [false, true, false, true] raceInit).ret0 ≠
      (raceRun [false, true, false, true] raceInit).ret1 := by
  decide

/-- Decimal digit characters are injective below 10. -/
theorem decDigitChar_inj : ∀ d < 10, ∀ e < 10,
    Char.ofNat (48 + d) = Char.ofNat (48 + e) → d = e := by decide

/-- Unfolding of decChars on a one digit number. -/
theorem decChars_lt {n : Nat} (h : n < 10) :
    decChars n = [Char.ofNat (48 + n)] := by
  rw [decChars.eq_def]
  simp [h]

/-- Unfolding of decChars on a number of several digits. -/
theorem decChars_ge {n : Nat} (h : ¬ n < 10) :
    decChars n = decChars (n / 10) ++ [Char.ofNat (48 + n % 10)] := by
  rw [decChars.eq_def]
  simp [h]

/-- Decimal formatting never yields the empty character list. -/
theorem decChars_ne_nil (n : Nat) : decChars n ≠ [] := by
  by_cases h : n < 10
  · rw [decChars_lt h]; simp
  · rw [decChars_ge h]; simp

/-- Decimal formatting of natural numbers is injective. -/
theorem decChars_inj : ∀ m n : Nat, decChars m = decChars n → m = n := by
  intro m
  induction m using Nat.strong_induction_on with
  | _ m ih =>
    intro n h
    by_cases hm : m < 10 <;> by_cases hn : n < 10
    · rw [decChars_lt hm, decChars_lt hn] at h
      simp only [List.cons.injEq, and_true] at h
      exact decDigitChar_inj m hm n hn h
    · exfalso
      rw [decChars_lt hm, decChars_ge hn] at h
      have h1 := congrArg List.length h
      have h2 : 0 < (decChars (n / 10)).length :=
        List.length_pos.mpr (decChars_ne_nil _)
      simp only [List.length_append, List.length_singleton] at h1
      omega
    · exfalso
      rw [decChars_ge hm, decChars_lt hn] at h
      have h1 := congrArg List.length h
      have h2 : 0 < (decChars (m / 10)).length :=
        List.length_pos.mpr (decChars_ne_nil _)
      simp only [List.length_append, List.length_singleton] at h1
      omega
    · rw [decChars_ge hm, decChars_ge hn] at h
      obtain ⟨h1, h2⟩ := List.append_inj' h rfl
      have hdiv := ih (m / 10) (Nat.div_lt_self (by omega) (by omega))
        (n / 10) h1
      simp only [List.cons.injEq, and_true] at h2
      have hmod := decDigitChar_inj (m % 10) (Nat.mod_lt _ (by omega))
        (n % 10) (Nat.mod_lt _ (by omega)) h2
      omega

/-- A word always prints as eight hex characters. -/
theorem wordHexLE_length (w : Nat) : (wordHexLE w).length = 8 := by
  simp [wordHexLE, byteHex]

/-- The eight character hash prefix is exactly the hex of the first
digest word. -/
theorem textHash8_data (t : String) :
    (textHash8 t).data = wordHexLE (md5Digest (utf8Bytes t)).1 := by
  show (md5Hex (utf8Bytes t)).data.take 8 = _
  simp only [md5Hex]
  rw [List.append_assoc, List.append_assoc]
  exact List.take_left' (wordHexLE_length _)

/-- The hash prefix always has eight characters. -/
theorem textHash8_length (t : String) : (textHash8 t).data.length = 8 := by
  rw [textHash8_data]
  exact wordHexLE_length _

/-- One MD5 compression keeps the first state word below 2 ^ 32. -/
theorem md5Block_fst_lt (st : Nat × Nat × Nat × Nat) (m : List Nat) :
    (md5Block st m).1 < 2 ^ 32 := by
  simp only [md5Block]
  exact Nat.mod_lt _ (by norm_num)

/-- The first MD5 digest word is below 2 ^ 32 for every input. -/
theorem md5Digest_fst_lt (msg : List Nat) : (md5Digest msg).1 < 2 ^ 32 := by
  simp only [md5Digest]
  have key : ∀ (l : List (List Nat)) (st : Nat × Nat × Nat × Nat),
      st.1 < 2 ^ 32 →
      (l.foldl (fun st chunk => md5Block st (bytesToWords chunk)) st).1
        < 2 ^ 32 := by
    intro l
    induction l with
    | nil => intro st h; exact h
    | cons c rest ih => intro st _; exact ih _ (md5Block_fst_lt _ _)
  exact key _ _ (by norm_num)

/-- C8 fails: the filename distinguishes texts only through the first
32 bits of their md5 digest, and a map from the infinitely many texts
into 2 ^ 32 truncated-hash values cannot be injective, so there are two
different texts that receive the same filename at the same coarse
timestamp — concurrent requests for them would share one output path. -/
theorem c8_counterexample :
    ∃ t1 t2 : String, t1 ≠ t2 ∧
      outputFilename 0 t1 = outputFilename 0 t2 := by
  obtain ⟨n1, n2, hne, heq⟩ := Finite.exists_ne_map_eq_of_infinite
    (fun n : Nat => (⟨(md5Digest (utf8Bytes ⟨decChars n⟩)).1,
      md5Digest_fst_lt _⟩ : Fin (2 ^ 32)))
  refine ⟨⟨decChars n1⟩, ⟨decChars n2⟩, ?_, ?_⟩
  · intro hx
    exact hne (decChars_inj n1 n2 (congrArg String.data hx))
  · have hw : (md5Digest (utf8Bytes ⟨decChars n1⟩)).1 =
        (md5Digest (utf8Bytes ⟨decChars n2⟩)).1 :=
      congrArg Fin.val heq
    have hh : textHash8 ⟨decChars n1⟩ = textHash8 ⟨decChars n2⟩ :=
      String.ext (by rw [textHash8_data, textHash8_data, hw])
    simp only [outputFilename, hh]

/-- C8 amended: two output filenames coincide exactly when both the
coarse timestamp and the eight character md5 prefix of the text
coincide; hence identical texts at different coarse timestamps always
get distinct names, and two concurrent texts get distinct names exactly
when their truncated hashes differ — which, by the counterexample,
distinct texts do not always do. -/
theorem c8_filename_scheme (ts1 ts2 : Nat) (t1 t2 : String) :
    outputFilename ts1 t1 = outputFilename ts2 t2 ↔
      ts1 = ts2 ∧ textHash8 t1 = textHash8 t2 := by
  constructor
  · intro h
    have hd := congrArg String.data h
    simp only [outputFilename, String.data_append, List.append_assoc] at hd
    have hd2 := List.append_cancel_left hd
    have hlen : ("_".data ++ ((textHash8 t1).data ++ ".wav".data)).length =
        ("_".data ++ ((textHash8 t2).data ++ ".wav".data)).length := by
      simp only [List.length_append, textHash8_length]
    obtain ⟨hdec, hrest⟩ := List.append_inj' hd2 hlen
    refine ⟨decChars_inj _ _ hdec, ?_⟩
    have hrest2 := List.append_cancel_left hrest
    obtain ⟨hh, _⟩ := List.append_inj hrest2
      (by rw [textHash8_length, textHash8_length])
    exact String.ext hh
  · rintro ⟨rfl, hh⟩
    simp only [outputFilename, hh]
